import Mathlib

/-!
Verification of the session/credential lifecycle manager and the concurrent
paginated catalog fetcher of `src/backend/spotify_auth.go`.

The Go code is shallowly embedded: network calls (token endpoint, profile
endpoint, per-page fetches) become explicit `Except`-valued parameters
(oracles), the mutex-guarded manager struct becomes an explicit
`ManagerState` threaded through each operation, and the worker-pool
concurrency of `runTrackPageWorkers` is captured by quantifying over the
arrival order of page results (a permutation of the offset list): the shared
job queue guarantees every offset is processed exactly once, and the
collector sees the results in some arrival order.
-/

namespace SpotifyAuth

/-- Embeds `spotifyTokenStore` (spotify_auth.go lines 36-42): access/refresh
tokens with absolute unix expiry. -/
structure spotifyTokenStore where
  accessToken : String
  refreshToken : String
  expiresAt : Int
  scope : String
  tokenType : String
deriving DecidableEq, Repr

/-- Embeds the anonymous token-endpoint response struct decoded in
`exchangeCodeForToken` / `refreshAccessToken` (lines 764-770, 814-820). -/
structure tokenResponseBody where
  access_token : String
  expires_in : Int
  refresh_token : String
  scope : String
  token_type : String
deriving DecidableEq, Repr

/-- Error cases of the token-endpoint functions, one constructor per return
branch of the Go code (request/transport failure, non-200 status with its
formatted message, JSON decode failure, missing client credentials). -/
inductive TokenError where
  | missingCredentials
  | requestFailed (msg : String)
  | httpStatus (msg : String)
  | decodeFailed (msg : String)
deriving DecidableEq, Repr

/-- One observed reply of the provider token endpoint: HTTP status, raw body,
and the result of JSON-decoding the body. -/
structure tokenEndpointReply where
  statusCode : Nat
  body : String
  decoded : Except String tokenResponseBody

/-- Embeds `exchangeCodeForToken` (lines 732-782). The HTTP round trip is the
`reply` parameter; `now` is the clock value used to compute `expiresAt`
(line 778: `time.Now().Add(expires_in seconds)`). -/
def exchangeCodeForToken (clientID clientSecret : String)
    (reply : Except String tokenEndpointReply) (now : Int) :
    Except TokenError spotifyTokenStore :=
  if clientID = "" ∨ clientSecret = "" then .error .missingCredentials
  else
    match reply with
    | .error e => .error (.requestFailed e)
    | .ok r =>
      if r.statusCode ≠ 200 then .error (.httpStatus ("token exchange failed: " ++ r.body))
      else
        match r.decoded with
        | .error e => .error (.decodeFailed e)
        | .ok t =>
          .ok { accessToken := t.access_token, refreshToken := t.refresh_token,
                expiresAt := now + t.expires_in, scope := t.scope, tokenType := t.token_type }

/-- Embeds `refreshAccessToken` (lines 784-836), including the retention of
the prior refresh token when the provider omits one (lines 825-827). -/
def refreshAccessToken (clientID clientSecret : String)
    (reply : Except String tokenEndpointReply) (refreshToken : String) (now : Int) :
    Except TokenError spotifyTokenStore :=
  if clientID = "" ∨ clientSecret = "" then .error .missingCredentials
  else
    match reply with
    | .error e => .error (.requestFailed e)
    | .ok r =>
      if r.statusCode ≠ 200 then .error (.httpStatus ("refresh failed: " ++ r.body))
      else
        match r.decoded with
        | .error e => .error (.decodeFailed e)
        | .ok t =>
          .ok { accessToken := t.access_token,
                refreshToken := if t.refresh_token = "" then refreshToken else t.refresh_token,
                expiresAt := now + t.expires_in, scope := t.scope, tokenType := t.token_type }

/-- Embeds `spotifyUserProfile` (lines 125-132); `images` keeps only the URLs. -/
structure spotifyUserProfile where
  id : String
  displayName : String
  email : String
  images : List String
deriving DecidableEq, Repr

/-- Mutable state of `spotifyAuthManager` (lines 75-84) plus the persisted
token file (`spotify_oauth.json`), which the manager reads and writes. -/
structure ManagerState where
  tokens : Option spotifyTokenStore
  profile : Option spotifyUserProfile
  verifier : String
  state : String
  redirect : String
  tokenFile : Option spotifyTokenStore
deriving DecidableEq, Repr

/-- Embeds `saveTokens` (lines 325-339): stores the record in memory and
rewrites the whole token file with it. Path resolution and the disk write are
modelled as succeeding. -/
def saveTokens (s : ManagerState) (t : spotifyTokenStore) : ManagerState :=
  { s with tokens := some t, tokenFile := some t }

/-- Embeds `loadTokensFromDisk` (lines 341-356): a missing file leaves the
in-memory tokens unchanged (the caller ignores `os.ErrNotExist`). -/
def loadTokensFromDisk (s : ManagerState) : ManagerState :=
  match s.tokenFile with
  | none => s
  | some t => { s with tokens := some t }

/-- Error cases of `ensureFreshTokenLocked` (lines 304-323). -/
inductive FreshError where
  | noToken
  | missingRefreshToken
  | refreshFailed (e : TokenError)
deriving DecidableEq, Repr

/-- Embeds `ensureFreshTokenLocked` (lines 304-323). The network refresh is
the `refresh` oracle; the `Nat` in the result counts how many times it was
invoked during the call (the function body invokes it on exactly one path). -/
def ensureFreshTokenLocked (refresh : String → Except TokenError spotifyTokenStore)
    (now : Int) (s : ManagerState) : Except FreshError (ManagerState × Nat) :=
  match s.tokens with
  | none => .error .noToken
  | some t =>
    if now + 30 < t.expiresAt then .ok (s, 0)
    else if t.refreshToken = "" then .error .missingRefreshToken
    else
      match refresh t.refreshToken with
      | .error e => .error (.refreshFailed e)
      | .ok r => .ok (saveTokens s r, 1)

/-- Error cases of `status` / `fetchProfileLocked`. -/
inductive StatusError where
  | notAuthenticated
  | freshness (e : FreshError)
  | profileFetch (msg : String)
deriving DecidableEq, Repr

/-- Embeds `fetchProfileLocked` (lines 358-371): requires a token, ensures
freshness, then decodes the `/me` response (the `profileReply` oracle). -/
def fetchProfileLocked (refresh : String → Except TokenError spotifyTokenStore)
    (now : Int) (profileReply : Except String spotifyUserProfile)
    (s : ManagerState) : Except StatusError (spotifyUserProfile × ManagerState) :=
  match s.tokens with
  | none => .error .notAuthenticated
  | some _ =>
    match ensureFreshTokenLocked refresh now s with
    | .error e => .error (.freshness e)
    | .ok (s1, _) =>
      match profileReply with
      | .error e => .error (.profileFetch e)
      | .ok p => .ok (p, s1)

/-- HTTP outcome of one `/callback` request together with the manager state it
leaves behind and the number of `exchangeCodeForToken` invocations it made. -/
structure CallbackOutcome where
  httpStatus : Nat
  httpBody : String
  after : ManagerState
  exchangeCalls : Nat
deriving DecidableEq, Repr

/-- Embeds `handleCallback` (lines 190-241). `qstate` and `qcode` are the
results of `query.Get` (an absent parameter yields `""`); `exchange` abstracts
`exchangeCodeForToken` applied to `(code, redirect, verifier)`; persisting via
`saveTokens` is modelled as succeeding. -/
def handleCallback (exchange : String → String → String → Except TokenError spotifyTokenStore)
    (refresh : String → Except TokenError spotifyTokenStore) (now : Int)
    (profileReply : Except String spotifyUserProfile)
    (qstate qcode : String) (s : ManagerState) : CallbackOutcome :=
  if qstate = "" ∨ qcode = "" then
    { httpStatus := 400, httpBody := "Invalid response from Spotify", after := s, exchangeCalls := 0 }
  else if qstate ≠ s.state then
    { httpStatus := 400, httpBody := "State mismatch", after := s, exchangeCalls := 0 }
  else
    match exchange qcode s.redirect s.verifier with
    | .error _ =>
      { httpStatus := 500, httpBody := "Failed to exchange code", after := s, exchangeCalls := 1 }
    | .ok tok =>
      let s1 := saveTokens s tok
      match fetchProfileLocked refresh now profileReply s1 with
      | .error _ =>
        { httpStatus := 500, httpBody := "Failed to fetch profile", after := s1, exchangeCalls := 1 }
      | .ok (p, s2) =>
        { httpStatus := 200,
          httpBody := "<html><body><p>Spotify login successful. You can close this window.</p></body></html>",
          after := { s2 with profile := some p }, exchangeCalls := 1 }

/-- Embeds `SpotifyAuthStatus` (lines 45-52). -/
structure SpotifyAuthStatus where
  authenticated : Bool
  displayName : String
  userID : String
  avatarURL : String
  expiresAt : Int
  scope : String
deriving DecidableEq, Repr

/-- Embeds `status` (lines 250-289): lazily loads tokens from disk, reports
unauthenticated when none exist, otherwise ensures freshness, lazily fetches
the profile, and assembles the status record. -/
def status (refresh : String → Except TokenError spotifyTokenStore) (now : Int)
    (profileReply : Except String spotifyUserProfile) (s : ManagerState) :
    Except StatusError (SpotifyAuthStatus × ManagerState) :=
  let s0 := if s.tokens.isNone then loadTokensFromDisk s else s
  match s0.tokens with
  | none =>
    .ok ({ authenticated := false, displayName := "", userID := "", avatarURL := "",
           expiresAt := 0, scope := "" }, s0)
  | some _ =>
    match ensureFreshTokenLocked refresh now s0 with
    | .error e => .error (.freshness e)
    | .ok (s1, _) =>
      let profRes : Except StatusError (spotifyUserProfile × ManagerState) :=
        match s1.profile with
        | some p => .ok (p, s1)
        | none =>
          match fetchProfileLocked refresh now profileReply s1 with
          | .error e => .error e
          | .ok (p, s2) => .ok (p, { s2 with profile := some p })
      match profRes with
      | .error e => .error e
      | .ok (p, s2) =>
        let t := s2.tokens.getD
          { accessToken := "", refreshToken := "", expiresAt := 0, scope := "", tokenType := "" }
        .ok ({ authenticated := true, displayName := p.displayName, userID := p.id,
               avatarURL := p.images.headD "", expiresAt := t.expiresAt, scope := t.scope }, s2)

/-- Embeds `logout` (lines 291-302): clears the in-memory token and profile
and removes the token file; always returns a nil error (path resolution and
`os.Remove` failures are ignored by the Go code). -/
def logout (s : ManagerState) : ManagerState × Option String :=
  ({ s with tokens := none, profile := none, tokenFile := none }, none)

/-- Embeds the constant `spotifyWorkerCount` (line 33). -/
def spotifyWorkerCount : Nat := 8

/-- Embeds `trackPageResult` (lines 607-611). The page payload type is left
generic because `AlbumTrackMetadata` is defined outside `src/backend`; the
coordinator never inspects it. `tracks = none` embeds a nil Go slice. -/
structure trackPageResult (α : Type) where
  offset : Int
  tracks : Option (List α)
  err : Option String
deriving DecidableEq, Repr

/-- Outcome of one `runTrackPageWorkers` call: how many workers were spawned
(lines 619-628; zero when the early empty-offsets return fires) and the
returned `([]trackPageResult, error)` pair. -/
structure WorkerRun (α : Type) where
  workersSpawned : Nat
  result : Except String (List (trackPageResult α))

/-- Embeds the body of one worker iteration (lines 632-643): a fired
cancellation signal short-circuits into an error result for the offset,
otherwise the fetch runs and its outcome is tagged with the offset. `ctxErr`
is the (constant) value of `ctx.Err()`. -/
def workerStep {α : Type} (ctxErr : Option String)
    (fetch : Int → Except String (List α)) (o : Int) : trackPageResult α :=
  match ctxErr with
  | some e => { offset := o, tracks := none, err := some e }
  | none =>
    match fetch o with
    | .error e => { offset := o, tracks := none, err := some e }
    | .ok ts => { offset := o, tracks := some ts, err := none }

/-- Embeds the error wrapping of line 660:
`fmt.Errorf("failed fetching tracks at offset %d: %w", res.offset, res.err)`. -/
def wrapPageErr (o : Int) (e : String) : String :=
  "failed fetching tracks at offset " ++ toString o ++ ": " ++ e

/-- Embeds the first-error-wins accumulation of the collection loop
(lines 658-661): the first result in arrival order carrying an error decides
`firstErr`, wrapped with its offset. -/
def firstErrIn {α : Type} : List (trackPageResult α) → Option String
  | [] => none
  | r :: rest =>
    match r.err with
    | some e => some (wrapPageErr r.offset e)
    | none => firstErrIn rest

/-- Embeds lines 658-669: the first arrival-order error, or the cancellation
error when no fetch error was recorded but the signal had fired (line 667). -/
def coordinatorError {α : Type} (ctxErr : Option String)
    (results : List (trackPageResult α)) : Option String :=
  match firstErrIn results with
  | some e => some e
  | none => ctxErr

/-- Ordering of collected pages used by the final sort (line 675). -/
def tprLe {α : Type} (a b : trackPageResult α) : Prop := a.offset ≤ b.offset

instance {α : Type} : DecidableRel (@tprLe α) :=
  fun a b => (Int.decLe a.offset b.offset : Decidable (a.offset ≤ b.offset))

instance {α : Type} : IsTotal (trackPageResult α) tprLe :=
  ⟨fun a b => Int.le_total a.offset b.offset⟩

instance {α : Type} : IsTrans (trackPageResult α) tprLe :=
  ⟨fun _ _ _ hab hbc => le_trans hab hbc⟩

/-- Embeds `runTrackPageWorkers` (lines 614-677). The concurrency is
abstracted by the `arrival` parameter: the shared job queue hands every
offset to exactly one worker and the collector drains the result channel in
some arrival order, so for a quiescent scheduler the multiset of results is
`arrival.map (workerStep ctxErr fetch)` with `arrival` a permutation of
`offsets` (the permutation hypothesis lives in the theorems). Collection
keeps results with a non-nil track slice (line 662), takes the first error in
arrival order (lines 659-661), falls back to the cancellation error
(line 667), and sorts successes by ascending offset (line 675). -/
def runTrackPageWorkers {α : Type} (ctxErr : Option String)
    (offsets arrival : List Int) (fetch : Int → Except String (List α)) :
    WorkerRun α :=
  if offsets.isEmpty then { workersSpawned := 0, result := .ok [] }
  else
    { workersSpawned :=
        if spotifyWorkerCount > offsets.length then offsets.length else spotifyWorkerCount,
      result :=
        let results := arrival.map (workerStep ctxErr fetch)
        match coordinatorError ctxErr results with
        | some e => .error e
        | none => .ok (List.insertionSort tprLe (results.filter (fun r => r.tracks.isSome))) }

/-- Modelled from the spec (refinement reference for the coordinator): the
results that fetching every offset strictly sequentially, in the given order,
and concatenating would produce. -/
def sequentialFetch {α : Type} (offsets : List Int)
    (fetch : Int → Except String (List α)) : List (trackPageResult α) :=
  offsets.map (workerStep none fetch)

/-- First fetch failure in the given (arrival) order, with its offset. -/
def firstFailure {α : Type} (fetch : Int → Except String (List α)) :
    List Int → Option (Int × String)
  | [] => none
  | o :: rest =>
    match fetch o with
    | .error e => some (o, e)
    | .ok _ => firstFailure fetch rest

/-- URL-safe base64 alphabet used by `base64.RawURLEncoding`. -/
def b64urlChars : List Char :=
  "ABCDEFGHIJKLMNOPQRSTUVWXYZabcdefghijklmnopqrstuvwxyz0123456789-_".toList

/-- Character for one six-bit value of the URL-safe alphabet. -/
def b64urlChar (n : Nat) : Char := b64urlChars.getD n 'A'

/-- Embeds `base64.RawURLEncoding.EncodeToString`: unpadded URL-safe base64
of a byte list (bytes are `Nat` values below 256). -/
def base64RawURLEncode : List Nat → List Char
  | [] => []
  | [a] => [b64urlChar (a / 4), b64urlChar (a % 4 * 16)]
  | [a, b] => [b64urlChar (a / 4), b64urlChar (a % 4 * 16 + b / 16), b64urlChar (b % 16 * 4)]
  | a :: b :: c :: rest =>
      b64urlChar (a / 4) :: b64urlChar (a % 4 * 16 + b / 16) ::
        b64urlChar (b % 16 * 4 + c / 64) :: b64urlChar (c % 64) :: base64RawURLEncode rest

/-- Embeds `randomString` (lines 861-867): `buf` is the byte buffer filled by
`crypto/rand.Read` (the Go function allocates it with size `length`), and the
returned string is the URL-safe encoding truncated to `length` characters. -/
def randomString (buf : List Nat) (length : Nat) : String :=
  String.mk ((base64RawURLEncode buf).take length)

/-- Embeds `generateCodeVerifier` (lines 857-859): `randomString(64)`. -/
def generateCodeVerifier (buf : List Nat) : String := randomString buf 64

/-- Embeds the state-token construction of `startLogin` (line 162):
`randomString(32)`. -/
def startLoginState (buf : List Nat) : String := randomString buf 32

/-- Standard base64 alphabet index of a character, as used by
`base64.StdEncoding`. -/
def b64StdIndex (c : Char) : Option Nat :=
  if 'A' ≤ c ∧ c ≤ 'Z' then some (c.toNat - 65)
  else if 'a' ≤ c ∧ c ≤ 'z' then some (c.toNat - 97 + 26)
  else if '0' ≤ c ∧ c ≤ '9' then some (c.toNat - 48 + 52)
  else if c = '+' then some 62
  else if c = '/' then some 63
  else none

/-- Decodes standard base64 quanta (4 characters to 3 bytes, with the usual
2- and 3-character final quanta after padding removal). -/
def b64DecodeQuanta : List Char → Option (List Nat)
  | [] => some []
  | [_] => none
  | [a, b] => do
      let ia ← b64StdIndex a
      let ib ← b64StdIndex b
      pure [ia * 4 + ib / 16]
  | [a, b, c] => do
      let ia ← b64StdIndex a
      let ib ← b64StdIndex b
      let ic ← b64StdIndex c
      pure [ia * 4 + ib / 16, ib % 16 * 16 + ic / 4]
  | a :: b :: c :: d :: rest => do
      let ia ← b64StdIndex a
      let ib ← b64StdIndex b
      let ic ← b64StdIndex c
      let idd ← b64StdIndex d
      let tail ← b64DecodeQuanta rest
      pure ((ia * 4 + ib / 16) :: (ib % 16 * 16 + ic / 4) :: (ic % 4 * 64 + idd) :: tail)

/-- Embeds `base64.StdEncoding.DecodeString` for well-formed inputs whose
padding (if any) is trailing, which covers the two built-in constants. -/
def base64StdDecode (s : String) : Option (List Nat) :=
  b64DecodeQuanta (s.toList.takeWhile (fun c => c ≠ '='))

/-- The base64 constant of `spotifyClientID` (line 882). -/
def builtinClientIDB64 : String := "NWY1NzNjOTYyMDQ5NGJhZTg3ODkwYzBmMDhhNjAyOTM="

/-- The base64 constant of `spotifyClientSecret` (line 937). -/
def builtinClientSecretB64 : String := "MjEyNDc2ZDliMGYzNDcyZWFhNzYyZDkwYjE5YjBiYTg="

/-- ASCII string built from decoded bytes, as Go `string(decoded)`. -/
def bytesToString (bs : List Nat) : String := String.mk (bs.map Char.ofNat)

/-- Decoded built-in client ID with the Go fallback-to-empty on decode
failure (lines 882-885). -/
def builtinClientID : String :=
  match base64StdDecode builtinClientIDB64 with
  | some bs => bytesToString bs
  | none => ""

/-- Decoded built-in client secret (lines 937-940). -/
def builtinClientSecret : String :=
  match base64StdDecode builtinClientSecretB64 with
  | some bs => bytesToString bs
  | none => ""

/-- Embeds `spotifyClientID` (lines 878-886): `custom` is the result of
`GetSpotifyClientID` (error, or the trimmed override-file content, `""` when
unset); a present non-empty override wins, otherwise the built-in decodes. -/
def spotifyClientID (custom : Except String String) : String :=
  match custom with
  | .ok c => if c ≠ "" then c else builtinClientID
  | .error _ => builtinClientID

/-- Embeds `spotifyClientSecret` (lines 932-941). -/
def spotifyClientSecret (custom : Except String String) : String :=
  match custom with
  | .ok c => if c ≠ "" then c else builtinClientSecret
  | .error _ => builtinClientSecret

/-- Concrete token with exactly 30 seconds left at clock value 0. -/
def staleTok : spotifyTokenStore :=
  { accessToken := "atk", refreshToken := "rtk", expiresAt := 30, scope := "sc", tokenType := "Bearer" }

/-- Concrete token a refresh oracle can hand back. -/
def freshTok : spotifyTokenStore :=
  { accessToken := "atk2", refreshToken := "rtk", expiresAt := 3630, scope := "sc", tokenType := "Bearer" }

/-- Manager holding `staleTok` in memory and on disk. -/
def mgrWithStale : ManagerState :=
  { tokens := some staleTok, profile := none, verifier := "", state := "", redirect := "",
    tokenFile := some staleTok }

/-- Manager in the middle of a login attempt, with an issued state token. -/
def mgrLoginPending : ManagerState :=
  { tokens := none, profile := none, verifier := "pkce-verifier", state := "issued-state",
    redirect := "http://127.0.0.1:3000/callback", tokenFile := none }

/-- Callback invocation whose `state` query parameter is empty (and hence
differs from the issued state). -/
def cxCallback : CallbackOutcome :=
  handleCallback (fun _ _ _ => .error (.httpStatus "x")) (fun _ => .error .missingCredentials) 0
    (.error "no profile") "" "authcode" mgrLoginPending

/-- Manager that was never authenticated. -/
def mgrInit : ManagerState :=
  { tokens := none, profile := none, verifier := "", state := "", redirect := "", tokenFile := none }

/-- Provider token response whose `access_token` field is empty. -/
def emptyAccessBody : tokenResponseBody :=
  { access_token := "", expires_in := 3600, refresh_token := "rtk", scope := "", token_type := "Bearer" }

/-- Successful (HTTP 200, well-formed JSON) reply carrying an empty access token. -/
def emptyAccessReply : tokenEndpointReply :=
  { statusCode := 200, body := "{}", decoded := .ok emptyAccessBody }

/-- Token record produced from `emptyAccessReply` at clock 0. -/
def emptyAccessRecord : spotifyTokenStore :=
  { accessToken := "", refreshToken := "rtk", expiresAt := 3600, scope := "", tokenType := "Bearer" }

/-- Well-formed provider token response with a non-empty access token. -/
def goodBody : tokenResponseBody :=
  { access_token := "ak", expires_in := 3600, refresh_token := "rk", scope := "s", token_type := "Bearer" }

/-- Successful reply wrapping `goodBody`. -/
def goodReply : tokenEndpointReply :=
  { statusCode := 200, body := "{}", decoded := .ok goodBody }

/-- Token record produced from `goodReply` at clock 0. -/
def goodRecord : spotifyTokenStore :=
  { accessToken := "ak", refreshToken := "rk", expiresAt := 3600, scope := "s", tokenType := "Bearer" }

/-- Refresh response that omits the rotated refresh token. -/
def omitRTBody : tokenResponseBody :=
  { access_token := "ak3", expires_in := 3600, refresh_token := "", scope := "s", token_type := "Bearer" }

/-- Successful reply wrapping `omitRTBody`. -/
def omitRTReply : tokenEndpointReply :=
  { statusCode := 200, body := "{}", decoded := .ok omitRTBody }

/-- Record produced by refreshing with `omitRTReply` and prior token `"prior"`. -/
def omitRTRecord : spotifyTokenStore :=
  { accessToken := "ak3", refreshToken := "prior", expiresAt := 3600, scope := "s", tokenType := "Bearer" }

/-- Refresh response that carries a rotated refresh token. -/
def newRTBody : tokenResponseBody :=
  { access_token := "ak4", expires_in := 3600, refresh_token := "rot", scope := "s", token_type := "Bearer" }

/-- Successful reply wrapping `newRTBody`. -/
def newRTReply : tokenEndpointReply :=
  { statusCode := 200, body := "{}", decoded := .ok newRTBody }

/-- Record produced by refreshing with `newRTReply`. -/
def newRTRecord : spotifyTokenStore :=
  { accessToken := "ak4", refreshToken := "rot", expiresAt := 3600, scope := "s", tokenType := "Bearer" }

/-- Always-succeeding page fetch returning a singleton page tagged with its
offset. -/
def pageFetchOk (o : Int) : Except String (List Int) := .ok [o]

/-- Page fetch that fails at offset 100 and succeeds elsewhere. -/
def pageFetchFail (o : Int) : Except String (List Int) :=
  if o = 100 then .error "boom" else .ok [o]

/-! Helper lemmas shared by the claim theorems. -/

theorem firstErrIn_eq_none {α : Type} (rs : List (trackPageResult α))
    (h : ∀ r ∈ rs, r.err = none) : firstErrIn rs = none := by
  induction rs with
  | nil => rfl
  | cons r rest ih =>
    have hr := h r (List.mem_cons_self r rest)
    simp only [firstErrIn, hr]
    exact ih (fun x hx => h x (List.mem_cons_of_mem r hx))

theorem coordinatorError_none {α : Type} (rs : List (trackPageResult α)) :
    coordinatorError none rs = firstErrIn rs := by
  cases hfe : firstErrIn rs <;> simp [coordinatorError, hfe]

theorem firstErrIn_map_workerStep {α : Type} (fetch : Int → Except String (List α))
    (arr : List Int) :
    firstErrIn (arr.map (workerStep none fetch)) =
      (firstFailure fetch arr).map (fun p => wrapPageErr p.1 p.2) := by
  induction arr with
  | nil => rfl
  | cons o rest ih =>
    cases hf : fetch o with
    | error e => simp [firstErrIn, workerStep, firstFailure, hf]
    | ok ts => simp [firstErrIn, workerStep, firstFailure, hf, ih]

theorem exchangeCodeForToken_not_missing_creds (cid csec : String)
    (h1 : cid ≠ "") (h2 : csec ≠ "") (reply : Except String tokenEndpointReply) (now : Int) :
    exchangeCodeForToken cid csec reply now ≠ .error .missingCredentials := by
  intro hcontra
  unfold exchangeCodeForToken at hcontra
  rw [if_neg (by simp [h1, h2])] at hcontra
  cases reply with
  | error e => simp at hcontra
  | ok r =>
    by_cases hs : r.statusCode ≠ 200
    · simp [hs] at hcontra
    · simp only [hs, if_false] at hcontra
      cases hd : r.decoded with
      | error e => rw [hd] at hcontra; simp at hcontra
      | ok t => rw [hd] at hcontra; simp at hcontra

theorem refreshAccessToken_not_missing_creds (cid csec : String)
    (h1 : cid ≠ "") (h2 : csec ≠ "") (reply : Except String tokenEndpointReply)
    (rt : String) (now : Int) :
    refreshAccessToken cid csec reply rt now ≠ .error .missingCredentials := by
  intro hcontra
  unfold refreshAccessToken at hcontra
  rw [if_neg (by simp [h1, h2])] at hcontra
  cases reply with
  | error e => simp at hcontra
  | ok r =>
    by_cases hs : r.statusCode ≠ 200
    · simp [hs] at hcontra
    · simp only [hs, if_false] at hcontra
      cases hd : r.decoded with
      | error e => rw [hd] at hcontra; simp at hcontra
      | ok t => rw [hd] at hcontra; simp at hcontra

theorem base64_append_chunks : ∀ (n : Nat) (xs ys : List Nat), xs.length = 3 * n →
    base64RawURLEncode (xs ++ ys) = base64RawURLEncode xs ++ base64RawURLEncode ys := by
  intro n
  induction n with
  | zero =>
    intro xs ys h
    have hx : xs = [] := List.length_eq_zero.mp (by omega)
    subst hx
    rfl
  | succ n ih =>
    intro xs ys h
    cases xs with
    | nil => simp at h
    | cons a xs1 =>
      cases xs1 with
      | nil => simp at h; omega
      | cons b xs2 =>
        cases xs2 with
        | nil => simp at h; omega
        | cons c rest =>
          have hr : rest.length = 3 * n := by
            simp [List.length_cons] at h
            omega
          simp [base64RawURLEncode, ih rest ys hr]

theorem base64_length_chunks : ∀ (n : Nat) (xs : List Nat), xs.length = 3 * n →
    (base64RawURLEncode xs).length = 4 * n := by
  intro n
  induction n with
  | zero =>
    intro xs h
    have hx : xs = [] := List.length_eq_zero.mp (by omega)
    subst hx
    rfl
  | succ n ih =>
    intro xs h
    cases xs with
    | nil => simp at h
    | cons a xs1 =>
      cases xs1 with
      | nil => simp at h; omega
      | cons b xs2 =>
        cases xs2 with
        | nil => simp at h; omega
        | cons c rest =>
          have hr : rest.length = 3 * n := by
            simp [List.length_cons] at h
            omega
          simp [base64RawURLEncode, ih rest hr]
          omega

theorem randomString_eq_encode_chunks (n : Nat) (buf : List Nat) (h : 3 * n ≤ buf.length) :
    randomString buf (4 * n) = String.mk (base64RawURLEncode (buf.take (3 * n))) := by
  unfold randomString
  have hlen : (buf.take (3 * n)).length = 3 * n := by
    rw [List.length_take]
    omega
  conv_lhs => rw [(List.take_append_drop (3 * n) buf).symm]
  rw [base64_append_chunks n _ _ hlen, List.take_left' (base64_length_chunks n _ hlen)]

/-! Claim theorems. -/

/-- C1 (counterexample): with exactly 30 seconds remaining
(`expiresAt - now = 30 ≥ 30`), `ensureFreshTokenLocked` performs a refresh,
contradicting the claim that no refresh occurs when at least 30 seconds
remain. -/
theorem ensureFresh_refreshes_at_exactly_thirty_seconds :
    staleTok.expiresAt - 0 ≥ 30 ∧
    ensureFreshTokenLocked (fun _ => .ok freshTok) 0 mgrWithStale =
      .ok (saveTokens mgrWithStale freshTok, 1) := by
  exact ⟨by decide, rfl⟩

/-- C1 (amended): whenever `ensureFreshTokenLocked` lets the operation
proceed, it performed exactly one refresh call if at most 30 seconds remained
before `expiresAt` (`expiresAt - now ≤ 30`), and no refresh call if more than
30 seconds remained. -/
theorem ensureFresh_refresh_iff_at_most_thirty
    (refresh : String → Except TokenError spotifyTokenStore) (now : Int)
    (s s' : ManagerState) (t : spotifyTokenStore) (n : Nat)
    (ht : s.tokens = some t)
    (h : ensureFreshTokenLocked refresh now s = .ok (s', n)) :
    (n = 1 ↔ t.expiresAt - now ≤ 30) ∧ (n = 0 ↔ 30 < t.expiresAt - now) := by
  simp only [ensureFreshTokenLocked, ht] at h
  by_cases hlt : now + 30 < t.expiresAt
  · rw [if_pos hlt] at h
    simp only [Except.ok.injEq, Prod.mk.injEq] at h
    obtain ⟨-, hn⟩ := h
    subst hn
    constructor
    · constructor
      · intro h1; omega
      · intro h1; omega
    · constructor
      · intro _; omega
      · intro _; rfl
  · rw [if_neg hlt] at h
    by_cases hrt : t.refreshToken = ""
    · rw [if_pos hrt] at h
      exact absurd h (by simp)
    · rw [if_neg hrt] at h
      cases hr : refresh t.refreshToken with
      | error e => rw [hr] at h; simp at h
      | ok r =>
        rw [hr] at h
        simp only [Except.ok.injEq, Prod.mk.injEq] at h
        obtain ⟨-, hn⟩ := h
        subst hn
        constructor
        · constructor
          · intro _; omega
          · intro _; rfl
        · constructor
          · intro h0; omega
          · intro h0; omega

/-- C1 (witness): the amended theorem applied to a stored token with exactly
30 seconds remaining and a succeeding refresh oracle. -/
theorem ensureFresh_refresh_iff_at_most_thirty_witness :
    ((1 : Nat) = 1 ↔ staleTok.expiresAt - 0 ≤ 30) ∧
    ((1 : Nat) = 0 ↔ 30 < staleTok.expiresAt - 0) :=
  ensureFresh_refresh_iff_at_most_thirty (fun _ => .ok freshTok) 0 mgrWithStale
    (saveTokens mgrWithStale freshTok) staleTok 1 rfl rfl

/-- C2 (counterexample): a callback whose `state` query parameter is empty
differs from the issued state, yet the handler rejects it with the
missing-parameter message, not the state-mismatch one (the exchange function
is still never invoked). -/
theorem handleCallback_empty_state_not_state_mismatch :
    ("" : String) ≠ mgrLoginPending.state ∧
    cxCallback.httpBody = "Invalid response from Spotify" ∧
    cxCallback.httpBody ≠ "State mismatch" ∧
    cxCallback.exchangeCalls = 0 := by
  exact ⟨by decide, rfl, by decide, rfl⟩

/-- C2 (amended): for every callback request whose `state` differs from the
issued state the token-exchange function is never invoked, and if both
`state` and `code` are present (non-empty) the request is rejected with the
state-mismatch error and HTTP 400. -/
theorem handleCallback_mismatched_state_never_exchanges
    (exchange : String → String → String → Except TokenError spotifyTokenStore)
    (refresh : String → Except TokenError spotifyTokenStore) (now : Int)
    (profileReply : Except String spotifyUserProfile)
    (qstate qcode : String) (s : ManagerState) (hne : qstate ≠ s.state) :
    (handleCallback exchange refresh now profileReply qstate qcode s).exchangeCalls = 0 ∧
    (qstate ≠ "" → qcode ≠ "" →
      handleCallback exchange refresh now profileReply qstate qcode s =
        { httpStatus := 400, httpBody := "State mismatch", after := s, exchangeCalls := 0 }) := by
  unfold handleCallback
  by_cases hempty : qstate = "" ∨ qcode = ""
  · rw [if_pos hempty]
    refine ⟨rfl, ?_⟩
    intro h1 h2
    rcases hempty with h | h
    · exact absurd h h1
    · exact absurd h h2
  · rw [if_neg hempty, if_pos hne]
    exact ⟨rfl, fun _ _ => rfl⟩

/-- C2 (witness): the amended theorem applied to a well-formed callback
carrying a wrong state token. -/
theorem handleCallback_mismatched_state_never_exchanges_witness :
    (handleCallback (fun _ _ _ => .error (.httpStatus "x"))
        (fun _ => .error .missingCredentials) 0 (.error "no profile")
        "attacker-state" "authcode" mgrLoginPending).exchangeCalls = 0 ∧
    (("attacker-state" : String) ≠ "" → ("authcode" : String) ≠ "" →
      handleCallback (fun _ _ _ => .error (.httpStatus "x"))
          (fun _ => .error .missingCredentials) 0 (.error "no profile")
          "attacker-state" "authcode" mgrLoginPending =
        { httpStatus := 400, httpBody := "State mismatch", after := mgrLoginPending,
          exchangeCalls := 0 }) :=
  handleCallback_mismatched_state_never_exchanges (fun _ _ _ => .error (.httpStatus "x"))
    (fun _ => .error .missingCredentials) 0 (.error "no profile")
    "attacker-state" "authcode" mgrLoginPending (by decide)

/-- C5 (confirmed): `runTrackPageWorkers` spawns exactly
`min(8, numberOfOffsets)` workers, and for an empty offset list it spawns no
worker and returns an empty, non-error result. -/
theorem runTrackPageWorkers_worker_count {α : Type} (ctxErr : Option String)
    (offsets arrival : List Int) (fetch : Int → Except String (List α)) :
    (runTrackPageWorkers ctxErr offsets arrival fetch).workersSpawned = min 8 offsets.length ∧
    runTrackPageWorkers ctxErr ([] : List Int) arrival fetch =
      { workersSpawned := 0, result := .ok [] } := by
  constructor
  · cases offsets with
    | nil => simp [runTrackPageWorkers]
    | cons o rest =>
      simp only [runTrackPageWorkers, List.isEmpty_cons, Bool.false_eq_true, if_false,
        spotifyWorkerCount]
      split <;> omega
  · rfl

/-- C9 (confirmed): `logout` is idempotent and total: in any state it returns
a nil error, clears the in-memory token and profile, leaves no persisted
token file, and a subsequent status check reports `authenticated = false`
without error. -/
theorem logout_idempotent_total (s : ManagerState)
    (refresh : String → Except TokenError spotifyTokenStore) (now : Int)
    (profileReply : Except String spotifyUserProfile) :
    (logout s).2 = none ∧
    (logout s).1.tokens = none ∧
    (logout s).1.profile = none ∧
    (logout s).1.tokenFile = none ∧
    logout (logout s).1 = logout s ∧
    status refresh now profileReply (logout s).1 =
      .ok ({ authenticated := false, displayName := "", userID := "", avatarURL := "",
             expiresAt := 0, scope := "" }, (logout s).1) :=
  ⟨rfl, rfl, rfl, rfl, rfl, rfl⟩

/-- C3 (confirmed): whatever the arrival order of the concurrently fetched
pages, if every per-offset fetch succeeds then `runTrackPageWorkers` returns
exactly the pages that strictly sequential fetching would produce (a
permutation of `sequentialFetch`), sorted by ascending offset. -/
theorem runTrackPageWorkers_refines_sequential {α : Type}
    (offsets arrival : List Int) (fetch : Int → Except String (List α))
    (hperm : arrival.Perm offsets)
    (hok : ∀ o ∈ offsets, ∃ ts, fetch o = .ok ts) :
    ∃ l, (runTrackPageWorkers none offsets arrival fetch).result = .ok l ∧
      l.Perm (sequentialFetch offsets fetch) ∧ List.Sorted tprLe l := by
  have hstep : ∀ o ∈ arrival, ∃ ts, workerStep none fetch o =
      { offset := o, tracks := some ts, err := none } := by
    intro o ho
    obtain ⟨ts, hts⟩ := hok o (hperm.mem_iff.mp ho)
    exact ⟨ts, by simp [workerStep, hts]⟩
  cases hoe : offsets with
  | nil =>
    rw [hoe] at hperm
    have harr : arrival = [] := hperm.eq_nil
    subst harr
    exact ⟨[], rfl, by simp [sequentialFetch], List.sorted_nil⟩
  | cons o os =>
    rw [hoe] at hperm hok
    set rs := arrival.map (workerStep none fetch) with hrs
    have herr : ∀ r ∈ rs, r.err = none := by
      intro r hr
      obtain ⟨x, hx, hxr⟩ := List.mem_map.mp hr
      obtain ⟨ts, hts⟩ := hstep x hx
      rw [← hxr, hts]
    have hfe : firstErrIn rs = none := firstErrIn_eq_none rs herr
    have hfilter : rs.filter (fun r => r.tracks.isSome) = rs := by
      rw [List.filter_eq_self]
      intro r hr
      obtain ⟨x, hx, hxr⟩ := List.mem_map.mp hr
      obtain ⟨ts, hts⟩ := hstep x hx
      rw [← hxr, hts]
      rfl
    refine ⟨List.insertionSort tprLe rs, ?_, ?_, ?_⟩
    · simp only [runTrackPageWorkers, List.isEmpty_cons, Bool.false_eq_true, if_false,
        ← hrs, coordinatorError_none, hfe, hfilter]
    · exact (List.perm_insertionSort tprLe rs).trans (hperm.map (workerStep none fetch))
    · exact List.sorted_insertionSort tprLe rs

/-- C3 (witness): the refinement theorem applied to offsets `[50, 100]`
arriving in reversed order with an always-succeeding fetch. -/
theorem runTrackPageWorkers_refines_sequential_witness :
    ∃ l, (runTrackPageWorkers none ([50, 100] : List Int) [100, 50] pageFetchOk).result =
        .ok l ∧
      l.Perm (sequentialFetch [50, 100] pageFetchOk) ∧ List.Sorted tprLe l :=
  runTrackPageWorkers_refines_sequential [50, 100] [100, 50] pageFetchOk (by decide)
    (fun o _ => ⟨[o], rfl⟩)

/-- C4 (confirmed): if some per-offset fetch fails, `runTrackPageWorkers`
returns the first error by arrival order wrapped with the failing page's
offset, and returns no partial result list. -/
theorem runTrackPageWorkers_first_error_wins {α : Type}
    (offsets arrival : List Int) (fetch : Int → Except String (List α))
    (hperm : arrival.Perm offsets) (o : Int) (msg : String)
    (hfail : firstFailure fetch arrival = some (o, msg)) :
    (runTrackPageWorkers none offsets arrival fetch).result = .error (wrapPageErr o msg) ∧
    ∀ l, (runTrackPageWorkers none offsets arrival fetch).result ≠ .ok l := by
  have harr : arrival ≠ [] := by
    intro hnil
    rw [hnil] at hfail
    exact Option.noConfusion hfail
  have hfe : firstErrIn (arrival.map (workerStep none fetch)) = some (wrapPageErr o msg) := by
    rw [firstErrIn_map_workerStep, hfail]
    rfl
  have hres : (runTrackPageWorkers none offsets arrival fetch).result =
      .error (wrapPageErr o msg) := by
    cases hoe : offsets with
    | nil =>
      rw [hoe] at hperm
      exact absurd hperm.eq_nil harr
    | cons x xs =>
      simp only [runTrackPageWorkers, List.isEmpty_cons, Bool.false_eq_true, if_false,
        coordinatorError_none, hfe]
  exact ⟨hres, fun l hl => by rw [hres] at hl; exact Except.noConfusion hl⟩

/-- C4 (witness): the fail-fast theorem applied to offsets `[50, 100]` where
the fetch at offset 100 fails and arrives first. -/
theorem runTrackPageWorkers_first_error_wins_witness :
    (runTrackPageWorkers none ([50, 100] : List Int) [100, 50] pageFetchFail).result =
      .error (wrapPageErr 100 "boom") ∧
    ∀ l, (runTrackPageWorkers none ([50, 100] : List Int) [100, 50] pageFetchFail).result ≠
      .ok l :=
  runTrackPageWorkers_first_error_wins [50, 100] [100, 50] pageFetchFail (by decide)
    100 "boom" rfl

/-- C6 (counterexample): two distinct 32-byte random buffers that agree on
their first 24 bytes produce the same state token, so the 32-character state
token issued by `startLogin` is not a function of (at least) 32 random bytes:
`randomString` truncates the encoding to 32 characters, which cover only the
first 24 bytes. -/
theorem startLoginState_not_function_of_32_bytes :
    (List.replicate 32 0 : List Nat) ≠ List.replicate 24 0 ++ 1 :: List.replicate 7 0 ∧
    (List.replicate 32 (0 : Nat)).length = 32 ∧
    (List.replicate 24 (0 : Nat) ++ 1 :: List.replicate 7 0).length = 32 ∧
    startLoginState (List.replicate 32 0) =
      startLoginState (List.replicate 24 0 ++ 1 :: List.replicate 7 0) := by
  exact ⟨by decide, by decide, by decide, by decide⟩

/-- C6 (amended): the state token issued by `startLogin` is a 32-character
URL-safe encoding determined by the first 24 of its 32 random bytes, and the
PKCE verifier is a 64-character URL-safe encoding determined by the first 48
of its 64 random bytes; neither token encodes its full random buffer, and in
particular the state token encodes 24 bytes of randomness, not at least 32. -/
theorem startLogin_tokens_depend_on_byte_prefix
    (b1 b2 c1 c2 : List Nat)
    (hb1 : b1.length = 32) (hb2 : b2.length = 32) (hb : b1.take 24 = b2.take 24)
    (hc1 : c1.length = 64) (hc2 : c2.length = 64) (hc : c1.take 48 = c2.take 48) :
    startLoginState b1 = startLoginState b2 ∧
    generateCodeVerifier c1 = generateCodeVerifier c2 := by
  constructor
  · show randomString b1 (4 * 8) = randomString b2 (4 * 8)
    rw [randomString_eq_encode_chunks 8 b1 (by omega),
      randomString_eq_encode_chunks 8 b2 (by omega),
      show b1.take (3 * 8) = b2.take (3 * 8) from hb]
  · show randomString c1 (4 * 16) = randomString c2 (4 * 16)
    rw [randomString_eq_encode_chunks 16 c1 (by omega),
      randomString_eq_encode_chunks 16 c2 (by omega),
      show c1.take (3 * 16) = c2.take (3 * 16) from hc]

/-- C6 (witness): the prefix-dependence theorem applied to concrete buffers
that differ only beyond the encoded prefix. -/
theorem startLogin_tokens_depend_on_byte_prefix_witness :
    startLoginState (List.replicate 32 0) =
      startLoginState (List.replicate 24 0 ++ 1 :: List.replicate 7 0) ∧
    generateCodeVerifier (List.replicate 64 0) =
      generateCodeVerifier (List.replicate 48 0 ++ 2 :: List.replicate 15 0) :=
  startLogin_tokens_depend_on_byte_prefix _ _ _ _ (by decide) (by decide) (by decide)
    (by decide) (by decide) (by decide)

/-- C7 (counterexample): a successful (HTTP 200, well-formed) token-exchange
reply whose `access_token` field is empty yields a token record with an empty
access token, and `saveTokens` persists it unchanged: the code never checks
the access token for emptiness before writing the token file. -/
theorem exchange_can_persist_empty_access_token :
    exchangeCodeForToken "cid" "csec" (.ok emptyAccessReply) 0 = .ok emptyAccessRecord ∧
    emptyAccessRecord.accessToken = "" ∧
    (saveTokens mgrInit emptyAccessRecord).tokenFile = some emptyAccessRecord := by
  exact ⟨rfl, rfl, rfl⟩

/-- C7 (amended): whenever the provider's successful token response carries a
non-empty `access_token`, the record produced by code exchange or refresh has
a non-empty access token, and `saveTokens` persists exactly that record; the
code itself does not enforce non-emptiness. -/
theorem token_record_nonempty_of_provider_nonempty
    (cid csec : String) (reply : tokenEndpointReply) (now : Int) (rt : String)
    (body : tokenResponseBody) (hdec : reply.decoded = .ok body)
    (hne : body.access_token ≠ "") (r : spotifyTokenStore) (s : ManagerState) :
    (exchangeCodeForToken cid csec (.ok reply) now = .ok r →
      r.accessToken ≠ "" ∧ (saveTokens s r).tokenFile = some r) ∧
    (refreshAccessToken cid csec (.ok reply) rt now = .ok r →
      r.accessToken ≠ "" ∧ (saveTokens s r).tokenFile = some r) := by
  constructor
  · intro h
    simp only [exchangeCodeForToken, hdec] at h
    split at h
    · exact absurd h (by simp)
    · split at h
      · exact absurd h (by simp)
      · simp only [Except.ok.injEq] at h
        subst h
        exact ⟨hne, rfl⟩
  · intro h
    simp only [refreshAccessToken, hdec] at h
    split at h
    · exact absurd h (by simp)
    · split at h
      · exact absurd h (by simp)
      · simp only [Except.ok.injEq] at h
        subst h
        exact ⟨hne, rfl⟩

/-- C7 (witness): the amended theorem applied to a successful exchange whose
response carries access token `"ak"`. -/
theorem token_record_nonempty_of_provider_nonempty_witness :
    goodRecord.accessToken ≠ "" ∧ (saveTokens mgrInit goodRecord).tokenFile = some goodRecord :=
  (token_record_nonempty_of_provider_nonempty "cid" "csec" goodReply 0 "prior" goodBody rfl
    (by decide) goodRecord mgrInit).1 rfl

/-- C8 (confirmed): when a successful refresh response omits a new refresh
token, the produced record retains the prior refresh token; when the response
carries one, it replaces the prior token. -/
theorem refresh_retains_prior_refresh_token
    (cid csec : String) (reply : tokenEndpointReply) (rt : String) (now : Int)
    (body : tokenResponseBody) (hdec : reply.decoded = .ok body)
    (r : spotifyTokenStore)
    (h : refreshAccessToken cid csec (.ok reply) rt now = .ok r) :
    (body.refresh_token = "" → r.refreshToken = rt) ∧
    (body.refresh_token ≠ "" → r.refreshToken = body.refresh_token) := by
  simp only [refreshAccessToken, hdec] at h
  split at h
  · exact absurd h (by simp)
  · split at h
    · exact absurd h (by simp)
    · simp only [Except.ok.injEq] at h
      subst h
      constructor
      · intro hrt
        simp [hrt]
      · intro hrt
        simp [hrt]

/-- C8 (witness): the retention theorem applied to a refresh response that
omits the refresh token (retains `"prior"`) and one that rotates it. -/
theorem refresh_retains_prior_refresh_token_witness :
    omitRTRecord.refreshToken = "prior" ∧ newRTRecord.refreshToken = "rot" :=
  ⟨(refresh_retains_prior_refresh_token "cid" "csec" omitRTReply "prior" 0 omitRTBody rfl
      omitRTRecord rfl).1 rfl,
    (refresh_retains_prior_refresh_token "cid" "csec" newRTReply "prior" 0 newRTBody rfl
      newRTRecord rfl).2 (by decide)⟩

/-- C10 (confirmed): `spotifyClientID` and `spotifyClientSecret` always
return a non-empty string (the built-in base64 constants decode successfully
when no override is set), so the missing-client-credentials error branch of
`exchangeCodeForToken` and `refreshAccessToken` is unreachable. -/
theorem client_credentials_never_missing
    (cid csec : Except String String)
    (reply1 reply2 : Except String tokenEndpointReply) (now1 now2 : Int) (rt : String) :
    spotifyClientID cid ≠ "" ∧ spotifyClientSecret csec ≠ "" ∧
    exchangeCodeForToken (spotifyClientID cid) (spotifyClientSecret csec) reply1 now1 ≠
      .error .missingCredentials ∧
    refreshAccessToken (spotifyClientID cid) (spotifyClientSecret csec) reply2 rt now2 ≠
      .error .missingCredentials := by
  have hbid : builtinClientID ≠ "" := by decide
  have hbsec : builtinClientSecret ≠ "" := by decide
  have hid : spotifyClientID cid ≠ "" := by
    unfold spotifyClientID
    cases cid with
    | error e => exact hbid
    | ok c =>
      show (if c ≠ "" then c else builtinClientID) ≠ ""
      by_cases hc : c = ""
      · rw [if_neg (not_not_intro hc)]
        exact hbid
      · rw [if_pos hc]
        exact hc
  have hsec : spotifyClientSecret csec ≠ "" := by
    unfold spotifyClientSecret
    cases csec with
    | error e => exact hbsec
    | ok c =>
      show (if c ≠ "" then c else builtinClientSecret) ≠ ""
      by_cases hc : c = ""
      · rw [if_neg (not_not_intro hc)]
        exact hbsec
      · rw [if_pos hc]
        exact hc
  exact ⟨hid, hsec,
    exchangeCodeForToken_not_missing_creds _ _ hid hsec reply1 now1,
    refreshAccessToken_not_missing_creds _ _ hid hsec reply2 rt now2⟩

end SpotifyAuth
